import Mathlib

/-!
# upnp-cli: router selection, local endpoint resolution and port mapping

A shallow embedding of `util.go` and `main.go`.

* Go `error` values are the inductive `Error`; a `nil` error is `none`.
* Calls that leave the process (console output, RPCs to the gateway, queries to
  the operating system) are recorded, in program order, in a trace of `Event`s.
  What such a call answers is given by an oracle that sees the trace so far.
* `uint16`, `uint32` and `uint64` values are natural numbers; the conversion
  `uint16(port)` of the parsed `uint64` port in `main` is modelled with `% 65536`.
* The functions of package `net` that work on IP addresses are parameters
  (`NetPkg`); `net.SplitHostPort` and `strconv.ParseUint` are embedded.
-/

namespace UpnpCli

/-! ## Errors, printed values, events -/

/-- Go `error` values that occur in the program. -/
inductive Error where
  /-- Value of `errors.New(s)`. -/
  | errorString (s : String)
  /-- Value of type `*net.AddrError`. -/
  | AddrError (Err Addr : String)
  /-- Value of type `*strconv.NumError`. -/
  | NumError (Func Num Err : String)
  /-- Any error produced outside the program (SOAP fault, OS error, ...). -/
  | foreign (description : String)
  deriving DecidableEq, Repr

/-- Signals the keep command subscribes to with `signal.Notify`. -/
inductive Signal where
  | SIGTERM
  | SIGINT
  | SIGQUIT
  deriving DecidableEq, Repr

/-- Operands handed to `fmt.Println` and `fmt.Print`. -/
inductive Val where
  | str (s : String)
  | uint (n : Nat)
  | err (e : Error)
  | sig (s : Signal)
  deriving DecidableEq, Repr

/-- Observable calls, recorded in program order. -/
inductive Event where
  /-- Call `fmt.Println(args...)`. -/
  | Println (args : List Val)
  /-- Call `fmt.Print(args...)`. -/
  | Print (args : List Val)
  /-- RPC `GetExternalIPAddress()`. -/
  | GetExternalIPAddress
  /-- RPC `AddPortMapping(...)`. -/
  | AddPortMapping (RemoteHost : String) (ExternalPort : Nat) (Protocol : String)
      (InternalPort : Nat) (InternalClient : String) (Enabled : Bool)
      (PortMappingDescription : String) (LeaseDuration : Nat)
  /-- RPC `DeletePortMapping(...)`. -/
  | DeletePortMapping (RemoteHost : String) (ExternalPort : Nat) (Protocol : String)
  /-- Call `net.Interfaces()`. -/
  | Interfaces
  /-- Call `iface.Addrs()` on the interface at position `index` of the enumeration. -/
  | Addrs (index : Nat)
  deriving DecidableEq, Repr

/-- An event is remote when it is an RPC to the gateway. -/
def Event.isRemote : Event → Bool
  | .GetExternalIPAddress => true
  | .AddPortMapping .. => true
  | .DeletePortMapping .. => true
  | _ => false

/-- The RPCs of a trace, in order. -/
def remoteCalls (tr : List Event) : List Event := tr.filter Event.isRemote

/-- Number of `net.Interfaces()` calls in a trace. -/
def interfaceEnumerations (tr : List Event) : Nat := tr.count Event.Interfaces

/-! ## The gateway handle -/

/-- What stands behind a client handle of the UPnP library: the host of the root
device's URL base and the answers of the gateway to the RPCs. Each answer may
depend on everything that happened before the call. -/
structure Device where
  /-- Value of `GetServiceClient().RootDevice.URLBase.Host`. -/
  URLBaseHost : String
  GetExternalIPAddress : List Event → Except Error String
  AddPortMapping : List Event → String → Nat → String → Nat → String → Bool → String → Nat →
    Option Error
  DeletePortMapping : List Event → String → Nat → String → Option Error

/-- An interface value of type `RouterClientConn`: the dynamic type is one of the
three client types of `internetgateway2`. -/
inductive RouterClientConn where
  | WANIPConnection1 (c : Device)
  | WANIPConnection2 (c : Device)
  | WANPPPConnection1 (c : Device)

/-- The device behind an interface value. -/
def RouterClientConn.device : RouterClientConn → Device
  | .WANIPConnection1 c => c
  | .WANIPConnection2 c => c
  | .WANPPPConnection1 c => c

/-! ## `PickRouterClient` -/

/-- What one `internetgateway2.New...Clients()` call returned: the clients and the
error (the second result, the per-device errors, is discarded by the program). -/
structure Enumeration where
  clients : List Device
  err : Option Error

/-- The three goroutines started with `tasks.Go`. -/
inductive Task where
  | ip1
  | ip2
  | ppp1
  deriving DecidableEq, Repr

/-- The order in which the three goroutines finish. -/
inductive Completion where
  | ip1_ip2_ppp1
  | ip1_ppp1_ip2
  | ip2_ip1_ppp1
  | ip2_ppp1_ip1
  | ppp1_ip1_ip2
  | ppp1_ip2_ip1
  deriving DecidableEq, Repr

/-- A completion order as a list, first finisher first. -/
def Completion.order : Completion → List Task
  | .ip1_ip2_ppp1 => [.ip1, .ip2, .ppp1]
  | .ip1_ppp1_ip2 => [.ip1, .ppp1, .ip2]
  | .ip2_ip1_ppp1 => [.ip2, .ip1, .ppp1]
  | .ip2_ppp1_ip1 => [.ip2, .ppp1, .ip1]
  | .ppp1_ip1_ip2 => [.ppp1, .ip1, .ip2]
  | .ppp1_ip2_ip1 => [.ppp1, .ip2, .ip1]

/-- Method `(*errgroup.Group).Wait`: once every goroutine has returned, the first
non-nil error any of them returned (first in completion order), or nil. -/
def Wait (order : Completion) (result : Task → Option Error) : Option Error :=
  order.order.findSome? result

/-- Function `PickRouterClient` of `util.go`. The three enumerations run in
goroutines; `ip1`, `ip2`, `ppp1` are what they returned and `order` is the order
in which they finished. -/
def PickRouterClient (order : Completion) (ip1 ip2 ppp1 : Enumeration) :
    Except Error RouterClientConn :=
  let ip1Clients := ip1.clients
  let ip2Clients := ip2.clients
  let ppp1Clients := ppp1.clients
  let result : Task → Option Error := fun t =>
    match t with
    | .ip1 => ip1.err
    | .ip2 => ip2.err
    | .ppp1 => ppp1.err
  match Wait order result with
  | some err => .error err
  | none =>
    if h2 : ip2Clients.length = 1 then
      .ok (.WANIPConnection2 (ip2Clients.get ⟨0, by omega⟩))
    else if h1 : ip1Clients.length = 1 then
      .ok (.WANIPConnection1 (ip1Clients.get ⟨0, by omega⟩))
    else if hp : ppp1Clients.length = 1 then
      .ok (.WANPPPConnection1 (ppp1Clients.get ⟨0, by omega⟩))
    else
      .error (.errorString "multiple or no services found")

/-! ## Package `net` and `strconv` -/

/-- Go `bytealg.IndexByteString`: position of the first `c`, if any. -/
def IndexByteString : List Char → Char → Option Nat
  | [], _ => none
  | x :: xs, c => if x = c then some 0 else (IndexByteString xs c).map (· + 1)

/-- Go `bytealg.LastIndexByteString`: position of the last `c`, if any. -/
def LastIndexByteString : List Char → Char → Option Nat
  | [], _ => none
  | x :: xs, c =>
    match LastIndexByteString xs c with
    | some i => some (i + 1)
    | none => if x = c then some 0 else none

/-- Go `net.SplitHostPort`: splits `host:port`, `[host]:port` into host and port.
On every failure the two strings are empty and the error is a `*net.AddrError`. -/
def SplitHostPort (hostport : String) : String × String × Option Error :=
  let s := hostport.data
  let missingPort := "missing port in address"
  let tooManyColons := "too many colons in address"
  let addrErr : String → String × String × Option Error :=
    fun why => ("", "", some (.AddrError why hostport))
  -- The port starts after the last colon.
  match LastIndexByteString s ':' with
  | none => addrErr missingPort
  | some i =>
    let finish : List Char → Nat → Nat → String × String × Option Error :=
      fun host j k =>
        if (IndexByteString (s.drop j) '[').isSome then
          addrErr "unexpected '[' in address"
        else if (IndexByteString (s.drop k) ']').isSome then
          addrErr "unexpected ']' in address"
        else
          (String.mk host, String.mk (s.drop (i + 1)), none)
    if s.head? = some '[' then
      -- Expect the first ']' just before the last ':'.
      match IndexByteString s ']' with
      | none => addrErr "missing ']' in address"
      | some end_ =>
        if end_ + 1 = s.length then
          addrErr missingPort
        else if end_ + 1 = i then
          finish ((s.take end_).drop 1) 1 (end_ + 1)
        else if s.get? (end_ + 1) = some ':' then
          addrErr tooManyColons
        else
          addrErr missingPort
    else
      let host := s.take i
      if (IndexByteString host ':').isSome then
        addrErr tooManyColons
      else
        finish host 0 0

/-- Loop of `strconv.ParseUint(s0, 10, 16)` over the remaining characters, `n` being
the value read so far. Every character other than a decimal digit is a syntax
error in base 10. -/
def ParseUint.loop (s0 : String) : List Char → Nat → Nat × Option Error
  | [], n => (n, none)
  | c :: cs, n =>
    if 48 ≤ c.toNat ∧ c.toNat ≤ 57 then
      let d := c.toNat - 48
      if n ≥ 18446744073709551615 / 10 + 1 then
        (65535, some (.NumError "ParseUint" s0 "value out of range"))
      else
        let n10 := n * 10
        let n1 := (n10 + d) % 18446744073709551616
        if n1 < n10 ∨ n1 > 65535 then
          (65535, some (.NumError "ParseUint" s0 "value out of range"))
        else
          ParseUint.loop s0 cs n1
    else
      (0, some (.NumError "ParseUint" s0 "invalid syntax"))

/-- Go `strconv.ParseUint(s, 10, 16)`. -/
def ParseUint (s : String) : Nat × Option Error :=
  if s = "" then (0, some (.NumError "ParseUint" s "invalid syntax"))
  else ParseUint.loop s s.data 0

/-- Go `net.IP`, a byte slice. -/
abbrev IP := List Nat

/-- Go `net.IPMask`, a byte slice. -/
abbrev IPMask := List Nat

/-- Go `net.IPNet`. -/
structure IPNet where
  IP : IP
  Mask : IPMask
  deriving DecidableEq, Repr

/-- Dynamic types of the `net.Addr` values an interface reports. -/
inductive Addr where
  /-- Value of type `*net.IPNet`. -/
  | IPNet (x : IPNet)
  /-- Value of any other type, for instance `*net.IPAddr`. -/
  | IPAddr (ip : IP) (Zone : String)
  deriving DecidableEq, Repr

/-- A `net.Interface` together with what `Addrs()` answers for it. -/
structure Interface where
  Name : String
  Addrs : List Event → Except Error (List Addr)

/-- The operating system as seen through `net.Interfaces()`. -/
structure Host where
  Interfaces : List Event → Except Error (List Interface)

/-- The functions of package `net` that work on IP addresses. The program only
calls them; they are parameters of the embedding. -/
structure NetPkg where
  /-- Go `net.ParseIP`; `none` is the nil address. -/
  ParseIP : String → Option IP
  /-- Go `(*net.IPNet).Contains`. -/
  Contains : IPNet → IP → Bool
  /-- Go `(net.IP).String`. -/
  IPString : IP → String

/-! ## `RouterClient` -/

/-- Struct `RouterClient` of `util.go`. -/
structure RouterClient where
  RouterClientConn : RouterClientConn
  localIP : String

/-- Function `CreateRouterClient` of `util.go`. -/
def CreateRouterClient (conn : RouterClientConn) : RouterClient :=
  { RouterClientConn := conn, localIP := "" }

/-- Inner loop of `GetLocalIP` over the addresses of one interface. -/
def GetLocalIP.addrs (net : NetPkg) (devIP : IP) : List Addr → Option String
  | [] => none
  | .IPNet x :: rest =>
    if net.Contains x devIP then some (net.IPString x.IP)
    else GetLocalIP.addrs net devIP rest
  | .IPAddr _ _ :: rest => GetLocalIP.addrs net devIP rest

/-- Outer loop of `GetLocalIP` over the interfaces; `i` is the position of the
first interface of the list in the enumeration. -/
def GetLocalIP.ifaces (net : NetPkg) (devIP : IP) :
    List Interface → Nat → List Event → Except Error String × List Event
  | [], _, tr => (.error (.errorString "couldn't determine internal ip"), tr)
  | iface :: rest, i, tr =>
    match iface.Addrs tr with
    | .error err => (.error err, tr ++ [.Addrs i])
    | .ok addrs =>
      match GetLocalIP.addrs net devIP addrs with
      | some ip => (.ok ip, tr ++ [.Addrs i])
      | none => GetLocalIP.ifaces net devIP rest (i + 1) (tr ++ [.Addrs i])

/-- Method `(*RouterClient).GetLocalIP` of `util.go`. Returns the result, the
receiver after the call and the trace after the call. -/
def GetLocalIP (net : NetPkg) (os : Host) (r : RouterClient) (tr : List Event) :
    Except Error String × RouterClient × List Event :=
  if r.localIP ≠ "" then
    (.ok r.localIP, r, tr)
  else
    let host := (SplitHostPort r.RouterClientConn.device.URLBaseHost).1
    match net.ParseIP host with
    | none => (.error (.errorString "couldn't determine router's internal ip"), r, tr)
    | some devIP =>
      match os.Interfaces tr with
      | .error err => (.error err, r, tr ++ [.Interfaces])
      | .ok ifaces =>
        let res := GetLocalIP.ifaces net devIP ifaces 0 (tr ++ [.Interfaces])
        (res.1, r, res.2)

/-- Method `(*RouterClient).Forward` of `util.go`. The `uint16` port is carried as a
natural number; the method does no arithmetic on it. -/
def Forward (net : NetPkg) (os : Host) (r : RouterClient) (port : Nat) (desc : String)
    (tr : List Event) : Option Error × RouterClient × List Event :=
  match GetLocalIP net os r tr with
  | (.error err, r, tr) => (some err, r, tr)
  | (.ok lip, r, tr) =>
    let tr := tr ++ [.Println [.str "Forwarding port", .uint port, .str "on TCP..."]]
    let err := r.RouterClientConn.device.AddPortMapping tr "" port "TCP" port lip true desc 0
    let tr := tr ++ [.AddPortMapping "" port "TCP" port lip true desc 0]
    match err with
    | some err => (some err, r, tr)
    | none =>
      let tr := tr ++ [.Println [.str "Forwarding port", .uint port, .str "on UDP..."]]
      let err := r.RouterClientConn.device.AddPortMapping tr "" port "UDP" port lip true desc 0
      let tr := tr ++ [.AddPortMapping "" port "UDP" port lip true desc 0]
      match err with
      | some err => (some err, r, tr)
      | none => (none, r, tr)

/-- Method `(*RouterClient).Clear` of `util.go`. The conversion `uint16(port)` of the
`uint16` parameter is the identity. -/
def Clear (r : RouterClient) (port : Nat) (tr : List Event) :
    Option Error × RouterClient × List Event :=
  let tr := tr ++ [.Println [.str "Clearing port", .uint port, .str "on TCP..."]]
  let err := r.RouterClientConn.device.DeletePortMapping tr "" port "TCP"
  let tr := tr ++ [.DeletePortMapping "" port "TCP"]
  match err with
  | some err => (some err, r, tr)
  | none =>
    let tr := tr ++ [.Println [.str "Clearing port", .uint port, .str "on UDP..."]]
    let err := r.RouterClientConn.device.DeletePortMapping tr "" port "UDP"
    let tr := tr ++ [.DeletePortMapping "" port "UDP"]
    match err with
    | some err => (some err, r, tr)
    | none => (none, r, tr)

/-! ## `main` -/

/-- How a run of `main` ends. -/
inductive Outcome where
  /-- Function `main` returned. -/
  | returned
  /-- Run-time panic `index out of range [index] with length length`. -/
  | indexOutOfRange (index length : Nat)
  /-- Function `main` waits on the signal channel and no signal ever arrives. -/
  | blocked
  deriving DecidableEq, Repr

/-- Everything a run of `main` depends on. -/
structure Process where
  /-- Value of `os.Args`. -/
  Args : List String
  /-- Completion order of the three discovery goroutines. -/
  order : Completion
  ip1 : Enumeration
  ip2 : Enumeration
  ppp1 : Enumeration
  net : NetPkg
  os : Host
  /-- The signal delivered on `sigs`, if one ever is. -/
  signal : Option Signal

/-- The usage text printed by `main`. -/
def helpText : List Event :=
  [.Println [.str "usage: "],
   .Println [.str "   upnp [external-ip | eip]                          shows external IP address"],
   .Println [.str "   upnp [forward | f] <port> [optional description]  forwards a port"],
   .Println [.str "   upnp [clear | c | unforward | uf] <port>          clears (unforwards) a port"],
   .Println [.str "   upnp [keep | k] <port> [optional description]     keeps a port forwarded for as long as this program is running"],
   .Println [.str "   upnp help                                         shows this message"]]

/-- Function `main` of `main.go`. Every indexing expression `os.Args[i]` is a
`get?` whose `none` branch is the run-time panic. The call `signal.Notify` leaves
no event; the receive `<-sigs` yields `p.signal` or blocks for ever. -/
def main (p : Process) : Outcome × List Event :=
  let Args := p.Args
  if Args.length < 2 then (.returned, helpText) else
  match Args.get? 1 with
  | none => (.indexOutOfRange 1 Args.length, [])
  | some a1 =>
  if a1 = "help" then (.returned, helpText) else
  let tr : List Event := [.Println [.str "Finding your router..."]]
  match PickRouterClient p.order p.ip1 p.ip2 p.ppp1 with
  | .error err => (.returned, tr ++ [.Println [.str "Couldn't find a UPnP router:", .err err]])
  | .ok routerconn =>
  let router := CreateRouterClient routerconn
  match Args.get? 1 with
  | none => (.indexOutOfRange 1 Args.length, tr)
  | some cmd =>
  if cmd = "external-ip" ∨ cmd = "eip" ∨ cmd = "ip" then
    let res := router.RouterClientConn.device.GetExternalIPAddress tr
    let tr := tr ++ [.GetExternalIPAddress]
    match res with
    | .error err => (.returned, tr ++ [.Println [.str "Couldn't discover external IP:", .err err]])
    | .ok ip => (.returned, tr ++ [.Println [.str "Your external IP is:", .str ip]])
  else if cmd = "forward" ∨ cmd = "f" then
    if Args.length ≤ 2 then
      match Args.get? 0 with
      | none => (.indexOutOfRange 0 Args.length, tr)
      | some a0 =>
        (.returned,
          tr ++ [.Println [.str "usage:", .str a0, .str "forward <port> [optional description]"]])
    else
      match Args.get? 2 with
      | none => (.indexOutOfRange 2 Args.length, tr)
      | some a2 =>
        match ParseUint a2 with
        | (_, some err) =>
          (.returned, tr ++ [.Println [.str "Couldn't parse port to forward:", .err err]])
        | (port, none) =>
          let desc := if Args.length > 3 then " ".intercalate (Args.drop 3) else "upnp-cli"
          match Forward p.net p.os router (port % 65536) desc tr with
          | (_, _, tr) =>
            (.returned,
              tr ++ [.Println [.str "Forwarded port", .uint port, .str "successfully!"]])
  else if cmd = "clear" ∨ cmd = "c" ∨ cmd = "unforward" ∨ cmd = "uf" then
    let usage : Outcome × List Event :=
      if Args.length ≤ 2 then
        match Args.get? 0 with
        | none => (.indexOutOfRange 0 Args.length, tr)
        | some a0 => (.returned, tr ++ [.Println [.str "usage:", .str a0, .str "clear <port>"]])
      else (.returned, tr)
    match usage with
    | (.returned, tr) =>
      match Args.get? 2 with
      | none => (.indexOutOfRange 2 Args.length, tr)
      | some a2 =>
        match ParseUint a2 with
        | (_, some err) =>
          (.returned, tr ++ [.Println [.str "Couldn't parse port to forward:", .err err]])
        | (port, none) =>
          match Clear router (port % 65536) tr with
          | (_, _, tr) =>
            (.returned,
              tr ++ [.Println [.str "Cleared port", .uint port, .str "successfully!"]])
    | stopped => stopped
  else if cmd = "keep" ∨ cmd = "k" then
    if Args.length ≤ 2 then
      match Args.get? 0 with
      | none => (.indexOutOfRange 0 Args.length, tr)
      | some a0 =>
        (.returned,
          tr ++ [.Println [.str "usage:", .str a0, .str "keep <port> [optional description]"]])
    else
      match Args.get? 2 with
      | none => (.indexOutOfRange 2 Args.length, tr)
      | some a2 =>
        match ParseUint a2 with
        | (_, some err) =>
          (.returned, tr ++ [.Println [.str "Couldn't parse port to forward:", .err err]])
        | (port, none) =>
          let desc := if Args.length > 3 then " ".intercalate (Args.drop 3) else "upnp-cli"
          match Forward p.net p.os router (port % 65536) desc tr with
          | (some err, _, tr) =>
            (.returned, tr ++ [.Println [.str "Couldn't forward:", .err err]])
          | (none, router, tr) =>
            let tr := tr ++ [.Println [.str "Forwarded port", .uint port, .str "successfully!"]]
            let tr := tr ++ [.Println [.str "Waiting for a close signal..."]]
            match p.signal with
            | none => (.blocked, tr)
            | some sig =>
              let tr := tr ++ [.Print [.str "Received signal '", .sig sig,
                .str "', clearing port ", .uint port, .str "...\n"]]
              match Clear router (port % 65536) tr with
              | (_, _, tr) =>
                (.returned,
                  tr ++ [.Println [.str "Cleared port", .uint port, .str "successfully!"],
                    .Println [.str "Exiting..."]])
  else
    (.returned, tr)

/-! ## Sample data

An instance of the address functions on dotted-quad text, and sample gateways and
hosts, on which the definitions above can be evaluated. -/

/-- Go `dtoi` of package `net`: decimal prefix of `s` as `(value, digits read, ok)`. -/
def dtoi.loop : List Char → Nat → Nat → Nat × Nat × Bool
  | [], n, i => if i = 0 then (0, 0, false) else (n, i, true)
  | c :: cs, n, i =>
    if 48 ≤ c.toNat ∧ c.toNat ≤ 57 then
      let n1 := n * 10 + (c.toNat - 48)
      if n1 ≥ 16777215 then (16777215, i, false) else dtoi.loop cs n1 (i + 1)
    else if i = 0 then (0, 0, false) else (n, i, true)

/-- Go `dtoi` of package `net`. -/
def dtoi (s : List Char) : Nat × Nat × Bool := dtoi.loop s 0 0

/-- Loop of Go `parseIPv4`: `todo` octets remain to be read, `first` tells whether
the next octet is the first one. -/
def parseIPv4.loop : Nat → Bool → List Char → List Nat → Option (List Nat)
  | 0, _, s, p => if s.length ≠ 0 then none else some p
  | todo + 1, first, s, p =>
    if s.length = 0 then none
    else
      let afterDot : Option (List Char) :=
        if first then some s
        else if s.head? ≠ some '.' then none
        else some (s.drop 1)
      match afterDot with
      | none => none
      | some s =>
        match dtoi s with
        | (n, c, ok) =>
          if !ok ∨ n > 255 then none
          else if c > 1 ∧ s.head? = some '0' then none
          else parseIPv4.loop todo false (s.drop c) (p ++ [n])

/-- Go `parseIPv4`: dotted-quad text to the 16-byte form of the address. -/
def parseIPv4 (s : String) : Option IP :=
  (parseIPv4.loop 4 true s.data []).map
    (fun p => [0, 0, 0, 0, 0, 0, 0, 0, 0, 0, 255, 255] ++ p)

/-- Go `(net.IP).To4`. -/
def To4 (ip : IP) : Option IP :=
  if ip.length = 4 then some ip
  else if ip.length = 16 ∧ ip.take 10 = [0, 0, 0, 0, 0, 0, 0, 0, 0, 0] ∧
      ip.get? 10 = some 255 ∧ ip.get? 11 = some 255 then
    some (ip.drop 12)
  else none

/-- Go `networkNumberAndMask`. -/
def networkNumberAndMask (n : IPNet) : Option (IP × IPMask) :=
  let ip4 := To4 n.IP
  if ip4 = none ∧ n.IP.length ≠ 16 then none
  else
    let ip := ip4.getD n.IP
    let m := n.Mask
    if m.length = 4 then
      if ip.length ≠ 4 then none else some (ip, m)
    else if m.length = 16 then
      if ip.length = 4 then some (ip, m.drop 12) else some (ip, m)
    else none

/-- Go `(*net.IPNet).Contains`. -/
def Contains (n : IPNet) (ip : IP) : Bool :=
  match networkNumberAndMask n with
  | none => false
  | some (nn, m) =>
    let ip := (To4 ip).getD ip
    if ip.length ≠ nn.length then false
    else
      (List.range ip.length).all
        (fun i => (nn.getD i 0) &&& (m.getD i 0) = (ip.getD i 0) &&& (m.getD i 0))

/-- The functions of package `net` restricted to dotted-quad text: `ParseIP`
answers nil on any text that is not a dotted quad, and `String` is only given for
addresses with an IPv4 form (other addresses print as `?`). -/
def dottedQuad : NetPkg where
  ParseIP := fun s => if s.data.contains '.' then parseIPv4 s else none
  Contains := Contains
  IPString := fun ip =>
    match To4 ip with
    | some [a, b, c, d] => ".".intercalate [toString a, toString b, toString c, toString d]
    | _ => "?"

/-- A gateway at `host` that accepts every request except those whose protocol is
in `rejected`. -/
def sampleDevice (host : String) (rejected : List String) : Device where
  URLBaseHost := host
  GetExternalIPAddress := fun _ => .ok "203.0.113.7"
  AddPortMapping := fun _ _ _ proto _ _ _ _ _ =>
    if proto ∈ rejected then some (.foreign "SOAP fault 718: ConflictInMappingEntry") else none
  DeletePortMapping := fun _ _ _ proto =>
    if proto ∈ rejected then some (.foreign "SOAP fault 714: NoSuchEntryInArray") else none

/-- A gateway at `192.168.1.1:5000` that accepts every request. -/
def gatewayA : Device := sampleDevice "192.168.1.1:5000" []

/-- A gateway at `192.168.1.254:49152` that accepts every request. -/
def gatewayB : Device := sampleDevice "192.168.1.254:49152" []

/-- A gateway at `10.0.0.1:1900` that accepts every request. -/
def gatewayC : Device := sampleDevice "10.0.0.1:1900" []

/-- A gateway at `192.168.1.1:5000` that rejects every TCP request. -/
def gatewayRejectingTCP : Device := sampleDevice "192.168.1.1:5000" ["TCP"]

/-- A gateway whose URL base has no explicit port: `http://192.168.1.1/`. -/
def gatewayDefaultPort : Device := sampleDevice "192.168.1.1" []

/-- A host with a loopback interface and one interface holding `192.168.1.50/24`. -/
def sampleHost : Host where
  Interfaces := fun _ => .ok
    [{ Name := "lo", Addrs := fun _ => .ok [.IPNet ⟨[127, 0, 0, 1], [255, 0, 0, 0]⟩] },
     { Name := "eth0", Addrs := fun _ => .ok
        [.IPAddr [192, 168, 1, 50] "", .IPNet ⟨[192, 168, 1, 50], [255, 255, 255, 0]⟩] }]

/-- A run of `main` on `sampleHost` where discovery finds exactly `dev`, as a
WANIPConnection2 client. -/
def sampleProcess (Args : List String) (dev : Device) (signal : Option Signal) : Process where
  Args := Args
  order := .ip1_ip2_ppp1
  ip1 := ⟨[], none⟩
  ip2 := ⟨[dev], none⟩
  ppp1 := ⟨[], none⟩
  net := dottedQuad
  os := sampleHost
  signal := signal

/-! ## Specification-side definitions -/

/-- An interface whose `Addrs()` call always succeeds with `addrs`. -/
def staticInterface (name : String) (addrs : List Addr) : Interface :=
  { Name := name, Addrs := fun _ => .ok addrs }

/-- The address ranges among the addresses of an interface, in address order: the
values of type `*net.IPNet`. -/
def ranges : List Addr → List IPNet
  | [] => []
  | .IPNet x :: rest => x :: ranges rest
  | .IPAddr _ _ :: rest => ranges rest

/-- The first range, in the given order, whose subnet contains the router's IP. -/
def firstContainingRange (net : NetPkg) (devIP : IP) (rs : List IPNet) : Option IPNet :=
  rs.find? (fun x => net.Contains x devIP)

/-! ## Theorems -/

theorem Wait_eq_none_iff (order : Completion) (result : Task → Option Error) :
    Wait order result = none ↔
      result .ip1 = none ∧ result .ip2 = none ∧ result .ppp1 = none := by
  cases order <;> simp [Wait, Completion.order] <;> tauto


/-- When the three enumerations succeeded, `PickRouterClient` is its switch. -/
theorem PickRouterClient_of_success (order : Completion) (ip1 ip2 ppp1 : Enumeration)
    (h1 : ip1.err = none) (h2 : ip2.err = none) (hp : ppp1.err = none) :
    PickRouterClient order ip1 ip2 ppp1 =
      if h : ip2.clients.length = 1 then
        .ok (.WANIPConnection2 (ip2.clients.get ⟨0, by omega⟩))
      else if h : ip1.clients.length = 1 then
        .ok (.WANIPConnection1 (ip1.clients.get ⟨0, by omega⟩))
      else if h : ppp1.clients.length = 1 then
        .ok (.WANPPPConnection1 (ppp1.clients.get ⟨0, by omega⟩))
      else
        .error (.errorString "multiple or no services found") := by
  have hw : Wait order (fun t => match t with
      | .ip1 => ip1.err
      | .ip2 => ip2.err
      | .ppp1 => ppp1.err) = none := by
    rw [Wait_eq_none_iff]
    exact ⟨h1, h2, hp⟩
  simp only [PickRouterClient, hw]

/-- C1: when the three enumerations succeeded, `PickRouterClient` returns the sole
element of the first sequence of length exactly one, in the order WANIPConnection2,
WANIPConnection1, WANPPPConnection1; in particular the WANIPConnection2 client wins
when the v2 and v1 sequences both hold exactly one client. -/
theorem PickRouterClient_selects_first_unambiguous (order : Completion)
    (ip1 ip2 ppp1 : Enumeration)
    (h1 : ip1.err = none) (h2 : ip2.err = none) (hp : ppp1.err = none) :
    (∀ a, ip2.clients = [a] →
      PickRouterClient order ip1 ip2 ppp1 = .ok (.WANIPConnection2 a)) ∧
    (∀ b, ip2.clients.length ≠ 1 → ip1.clients = [b] →
      PickRouterClient order ip1 ip2 ppp1 = .ok (.WANIPConnection1 b)) ∧
    (∀ c, ip2.clients.length ≠ 1 → ip1.clients.length ≠ 1 → ppp1.clients = [c] →
      PickRouterClient order ip1 ip2 ppp1 = .ok (.WANPPPConnection1 c)) ∧
    (∀ a b, ip2.clients = [a] → ip1.clients = [b] →
      PickRouterClient order ip1 ip2 ppp1 = .ok (.WANIPConnection2 a)) := by
  rw [PickRouterClient_of_success order ip1 ip2 ppp1 h1 h2 hp]
  obtain ⟨l1, e1⟩ := ip1
  obtain ⟨l2, e2⟩ := ip2
  obtain ⟨l3, e3⟩ := ppp1
  simp only at *
  refine ⟨?_, ?_, ?_, ?_⟩
  · intro a ha
    subst ha
    simp
  · intro b hn hb
    subst hb
    simp [hn]
  · intro c hn2 hn1 hc
    subst hc
    simp [hn2, hn1]
  · intro a b ha _
    subst ha
    simp

/-- Witness for C1: discovery finds one v2 and one v1 gateway; the v2 one is picked. -/
theorem PickRouterClient_selects_first_unambiguous_witness :
    ((⟨[gatewayB], none⟩ : Enumeration).err = none ∧
      (⟨[gatewayA], none⟩ : Enumeration).err = none ∧
      (⟨[], none⟩ : Enumeration).err = none ∧
      (⟨[gatewayA], none⟩ : Enumeration).clients = [gatewayA]) ∧
    PickRouterClient .ppp1_ip2_ip1 ⟨[gatewayB], none⟩ ⟨[gatewayA], none⟩ ⟨[], none⟩ =
      .ok (.WANIPConnection2 gatewayA) :=
  ⟨⟨rfl, rfl, rfl, rfl⟩,
    (PickRouterClient_selects_first_unambiguous .ppp1_ip2_ip1 ⟨[gatewayB], none⟩
      ⟨[gatewayA], none⟩ ⟨[], none⟩ rfl rfl rfl).1 gatewayA rfl⟩

/-- C2: when the three enumerations succeeded, `PickRouterClient` returns an error
exactly when none of the three sequences has length one, and the error then is
"multiple or no services found"; in particular it fails when the three sequences
are empty and when each of them has two or more entries. -/
theorem PickRouterClient_error_iff (order : Completion) (ip1 ip2 ppp1 : Enumeration)
    (h1 : ip1.err = none) (h2 : ip2.err = none) (hp : ppp1.err = none) :
    ((∃ e, PickRouterClient order ip1 ip2 ppp1 = .error e) ↔
      (ip2.clients.length ≠ 1 ∧ ip1.clients.length ≠ 1 ∧ ppp1.clients.length ≠ 1)) ∧
    ((ip2.clients.length ≠ 1 ∧ ip1.clients.length ≠ 1 ∧ ppp1.clients.length ≠ 1) →
      PickRouterClient order ip1 ip2 ppp1 =
        .error (.errorString "multiple or no services found")) ∧
    ((ip2.clients = [] ∧ ip1.clients = [] ∧ ppp1.clients = []) →
      ∃ e, PickRouterClient order ip1 ip2 ppp1 = .error e) ∧
    ((2 ≤ ip2.clients.length ∧ 2 ≤ ip1.clients.length ∧ 2 ≤ ppp1.clients.length) →
      ∃ e, PickRouterClient order ip1 ip2 ppp1 = .error e) := by
  rw [PickRouterClient_of_success order ip1 ip2 ppp1 h1 h2 hp]
  have key : (ip2.clients.length ≠ 1 ∧ ip1.clients.length ≠ 1 ∧ ppp1.clients.length ≠ 1) →
      (if h : ip2.clients.length = 1 then
        (.ok (.WANIPConnection2 (ip2.clients.get ⟨0, by omega⟩)) : Except Error RouterClientConn)
      else if h : ip1.clients.length = 1 then
        .ok (.WANIPConnection1 (ip1.clients.get ⟨0, by omega⟩))
      else if h : ppp1.clients.length = 1 then
        .ok (.WANPPPConnection1 (ppp1.clients.get ⟨0, by omega⟩))
      else
        .error (.errorString "multiple or no services found")) =
      .error (.errorString "multiple or no services found") := by
    rintro ⟨a, b, c⟩
    simp [a, b, c]
  refine ⟨⟨?_, fun h => ⟨_, key h⟩⟩, key, ?_, ?_⟩
  · rintro ⟨e, he⟩
    by_cases a : ip2.clients.length = 1
    · simp [a] at he
    · by_cases b : ip1.clients.length = 1
      · simp [a, b] at he
      · by_cases c : ppp1.clients.length = 1
        · simp [a, b, c] at he
        · exact ⟨a, b, c⟩
  · rintro ⟨a, b, c⟩
    exact ⟨_, key ⟨by simp [a], by simp [b], by simp [c]⟩⟩
  · rintro ⟨a, b, c⟩
    exact ⟨_, key ⟨by omega, by omega, by omega⟩⟩

/-- Witness for C2: two v2 gateways, no v1 gateway, three PPP gateways. -/
theorem PickRouterClient_error_iff_witness :
    ((⟨[], none⟩ : Enumeration).err = none ∧
      (⟨[gatewayA, gatewayB], none⟩ : Enumeration).err = none ∧
      (⟨[gatewayA, gatewayB, gatewayC], none⟩ : Enumeration).err = none) ∧
    PickRouterClient .ip1_ip2_ppp1 ⟨[], none⟩ ⟨[gatewayA, gatewayB], none⟩
        ⟨[gatewayA, gatewayB, gatewayC], none⟩ =
      .error (.errorString "multiple or no services found") :=
  ⟨⟨rfl, rfl, rfl⟩,
    (PickRouterClient_error_iff .ip1_ip2_ppp1 ⟨[], none⟩ ⟨[gatewayA, gatewayB], none⟩
      ⟨[gatewayA, gatewayB, gatewayC], none⟩ rfl rfl rfl).2.1
      ⟨by decide, by decide, by decide⟩⟩

/-- Counterexample to C3 as stated: with two WANIPConnection2 clients and one
WANIPConnection1 client the WANIPConnection1 client is returned, and with no
WANIPConnection2 client, two WANIPConnection1 clients and one WANPPPConnection1
client the WANPPPConnection1 client is returned. -/
theorem PickRouterClient_ambiguity_defers_to_lower_priority :
    (2 ≤ [gatewayA, gatewayB].length ∧ gatewayC ∈ [gatewayC] ∧
      PickRouterClient .ip1_ip2_ppp1 ⟨[gatewayC], none⟩ ⟨[gatewayA, gatewayB], none⟩
        ⟨[], none⟩ = .ok (.WANIPConnection1 gatewayC)) ∧
    (2 ≤ [gatewayA, gatewayB].length ∧ gatewayC ∈ [gatewayC] ∧
      PickRouterClient .ip1_ip2_ppp1 ⟨[gatewayA, gatewayB], none⟩ ⟨[], none⟩
        ⟨[gatewayC], none⟩ = .ok (.WANPPPConnection1 gatewayC)) ∧
    ¬ (∀ (order : Completion) (ip1 ip2 ppp1 : Enumeration),
        ip1.err = none → ip2.err = none → ppp1.err = none →
        2 ≤ ip2.clients.length →
        ∀ c, PickRouterClient order ip1 ip2 ppp1 = .ok c →
          (∀ x ∈ ip1.clients, c ≠ .WANIPConnection1 x) ∧
          (∀ x ∈ ppp1.clients, c ≠ .WANPPPConnection1 x)) := by
  refine ⟨⟨by decide, by simp, rfl⟩, ⟨by decide, by simp, rfl⟩, ?_⟩
  intro h
  have := (h .ip1_ip2_ppp1 ⟨[gatewayC], none⟩ ⟨[gatewayA, gatewayB], none⟩ ⟨[], none⟩
    rfl rfl rfl (by decide) (.WANIPConnection1 gatewayC) rfl).1 gatewayC (by simp)
  exact this rfl

/-- C3 as amended: when the three enumerations succeeded and the WANIPConnection2
sequence has two or more entries, no WANIPConnection2 client is returned and the
lower-priority variants decide: the sole WANIPConnection1 client if there is
exactly one, otherwise the sole WANPPPConnection1 client if there is exactly one,
otherwise the error. Likewise, when the WANIPConnection1 sequence has two or more
entries and the WANIPConnection2 sequence does not have exactly one, no
WANIPConnection1 client is returned and the WANPPPConnection1 sequence decides. -/
theorem PickRouterClient_ambiguity_falls_through (order : Completion)
    (ip1 ip2 ppp1 : Enumeration)
    (h1 : ip1.err = none) (h2 : ip2.err = none) (hp : ppp1.err = none) :
    (2 ≤ ip2.clients.length →
      (∀ a, PickRouterClient order ip1 ip2 ppp1 ≠ .ok (.WANIPConnection2 a)) ∧
      (∀ b, ip1.clients = [b] →
        PickRouterClient order ip1 ip2 ppp1 = .ok (.WANIPConnection1 b)) ∧
      (∀ c, ip1.clients.length ≠ 1 → ppp1.clients = [c] →
        PickRouterClient order ip1 ip2 ppp1 = .ok (.WANPPPConnection1 c)) ∧
      (ip1.clients.length ≠ 1 → ppp1.clients.length ≠ 1 →
        PickRouterClient order ip1 ip2 ppp1 =
          .error (.errorString "multiple or no services found"))) ∧
    (2 ≤ ip1.clients.length → ip2.clients.length ≠ 1 →
      (∀ a, PickRouterClient order ip1 ip2 ppp1 ≠ .ok (.WANIPConnection2 a)) ∧
      (∀ b, PickRouterClient order ip1 ip2 ppp1 ≠ .ok (.WANIPConnection1 b)) ∧
      (∀ c, ppp1.clients = [c] →
        PickRouterClient order ip1 ip2 ppp1 = .ok (.WANPPPConnection1 c)) ∧
      (ppp1.clients.length ≠ 1 →
        PickRouterClient order ip1 ip2 ppp1 =
          .error (.errorString "multiple or no services found"))) := by
  rw [PickRouterClient_of_success order ip1 ip2 ppp1 h1 h2 hp]
  obtain ⟨l1, e1⟩ := ip1
  obtain ⟨l2, e2⟩ := ip2
  obtain ⟨l3, e3⟩ := ppp1
  simp only at *
  constructor
  · intro hlen
    have hn2 : l2.length ≠ 1 := by omega
    refine ⟨?_, ?_, ?_, ?_⟩
    · intro a
      by_cases b : l1.length = 1
      · simp [hn2, b]
      · by_cases c : l3.length = 1
        · simp [hn2, b, c]
        · simp [hn2, b, c]
    · intro b hb
      subst hb
      simp [hn2]
    · intro c hn1 hc
      subst hc
      simp [hn2, hn1]
    · intro hn1 hn3
      simp [hn2, hn1, hn3]
  · intro hlen hn2
    have hn1 : l1.length ≠ 1 := by omega
    refine ⟨?_, ?_, ?_, ?_⟩
    · intro a
      by_cases c : l3.length = 1
      · simp [hn2, hn1, c]
      · simp [hn2, hn1, c]
    · intro a
      by_cases c : l3.length = 1
      · simp [hn2, hn1, c]
      · simp [hn2, hn1, c]
    · intro c hc
      subst hc
      simp [hn2, hn1]
    · intro hn3
      simp [hn2, hn1, hn3]

/-- Witness for C3 as amended: two v2 gateways and one v1 gateway. -/
theorem PickRouterClient_ambiguity_falls_through_witness :
    ((⟨[gatewayC], none⟩ : Enumeration).err = none ∧
      (⟨[gatewayA, gatewayB], none⟩ : Enumeration).err = none ∧
      (⟨[], none⟩ : Enumeration).err = none ∧
      2 ≤ (⟨[gatewayA, gatewayB], none⟩ : Enumeration).clients.length) ∧
    PickRouterClient .ip2_ip1_ppp1 ⟨[gatewayC], none⟩ ⟨[gatewayA, gatewayB], none⟩ ⟨[], none⟩ =
      .ok (.WANIPConnection1 gatewayC) :=
  ⟨⟨rfl, rfl, rfl, by decide⟩,
    ((PickRouterClient_ambiguity_falls_through .ip2_ip1_ppp1 ⟨[gatewayC], none⟩
      ⟨[gatewayA, gatewayB], none⟩ ⟨[], none⟩ rfl rfl rfl).1 (by decide)).2.1 gatewayC rfl⟩

/-- C8: if any of the three enumerations returned an error, `PickRouterClient`
returns an error, which is the error of one of the failed enumerations, whatever
clients the enumerations returned and in whatever order they finished; a client is
returned only when the three enumerations succeeded. -/
theorem PickRouterClient_fails_when_any_enumeration_fails (order : Completion)
    (ip1 ip2 ppp1 : Enumeration) :
    ((ip1.err ≠ none ∨ ip2.err ≠ none ∨ ppp1.err ≠ none) →
      ∃ e, PickRouterClient order ip1 ip2 ppp1 = .error e ∧
        (ip1.err = some e ∨ ip2.err = some e ∨ ppp1.err = some e)) ∧
    (∀ c, PickRouterClient order ip1 ip2 ppp1 = .ok c →
      ip1.err = none ∧ ip2.err = none ∧ ppp1.err = none) := by
  obtain ⟨l1, e1⟩ := ip1
  obtain ⟨l2, e2⟩ := ip2
  obtain ⟨l3, e3⟩ := ppp1
  constructor
  · intro h
    cases e1 <;> cases e2 <;> cases e3 <;> cases order <;>
      simp_all [PickRouterClient, Wait, Completion.order]
  · intro c hc
    cases e1 <;> cases e2 <;> cases e3 <;> cases order <;>
      simp_all [PickRouterClient, Wait, Completion.order]

/-- Witness for C8: the v2 enumeration fails although the v1 enumeration found
exactly one gateway. -/
theorem PickRouterClient_fails_when_any_enumeration_fails_witness :
    ((⟨[gatewayA], none⟩ : Enumeration).err ≠ none ∨
      (⟨[], some (.foreign "network is unreachable")⟩ : Enumeration).err ≠ none ∨
      (⟨[], none⟩ : Enumeration).err ≠ none) ∧
    ∃ e, PickRouterClient .ip1_ip2_ppp1 ⟨[gatewayA], none⟩
        ⟨[], some (.foreign "network is unreachable")⟩ ⟨[], none⟩ = .error e ∧
      ((⟨[gatewayA], none⟩ : Enumeration).err = some e ∨
        (⟨[], some (.foreign "network is unreachable")⟩ : Enumeration).err = some e ∨
        (⟨[], none⟩ : Enumeration).err = some e) :=
  ⟨Or.inr (Or.inl (by simp)),
    (PickRouterClient_fails_when_any_enumeration_fails .ip1_ip2_ppp1 ⟨[gatewayA], none⟩
      ⟨[], some (.foreign "network is unreachable")⟩ ⟨[], none⟩).1
      (Or.inr (Or.inl (by simp)))⟩

/-! ### `GetLocalIP`, `Forward`, `Clear` -/

theorem remoteCalls_append (a b : List Event) :
    remoteCalls (a ++ b) = remoteCalls a ++ remoteCalls b := by
  simp [remoteCalls]

/-- The interface loop issues no RPC. -/
theorem GetLocalIP.ifaces_remoteCalls (net : NetPkg) (devIP : IP) (l : List Interface) :
    ∀ (i : Nat) (tr : List Event),
      remoteCalls (GetLocalIP.ifaces net devIP l i tr).2 = remoteCalls tr := by
  induction l with
  | nil => intro i tr; rfl
  | cons iface rest ih =>
    intro i tr
    unfold GetLocalIP.ifaces
    split
    · simp [remoteCalls, Event.isRemote]
    · split
      · simp [remoteCalls, Event.isRemote]
      · rw [ih]
        simp [remoteCalls, Event.isRemote]

/-- The receiver is the same after `GetLocalIP` as before: the method assigns no
field. -/
theorem GetLocalIP_receiver (net : NetPkg) (os : Host) (r : RouterClient) (tr : List Event) :
    (GetLocalIP net os r tr).2.1 = r := by
  simp only [GetLocalIP]
  split
  · rfl
  · split
    · rfl
    · split <;> rfl

/-- Method `GetLocalIP` issues no RPC. -/
theorem GetLocalIP_remoteCalls (net : NetPkg) (os : Host) (r : RouterClient)
    (tr : List Event) :
    remoteCalls (GetLocalIP net os r tr).2.2 = remoteCalls tr := by
  simp only [GetLocalIP]
  split
  · rfl
  · split
    · rfl
    · split
      · simp [remoteCalls, Event.isRemote]
      · rw [GetLocalIP.ifaces_remoteCalls]
        simp [remoteCalls, Event.isRemote]

/-- C4: when local-IP resolution succeeds with `lip`, `Forward p d` first issues
`AddPortMapping("", p, "TCP", p, lip, true, d, 0)`; if that call fails, `Forward`
returns that error and the TCP request is the only RPC; otherwise it issues
`AddPortMapping("", p, "UDP", p, lip, true, d, 0)` as second and last RPC and
returns its result. No delete request is issued. -/
theorem Forward_tcp_then_udp (net : NetPkg) (os : Host) (r : RouterClient) (port : Nat)
    (desc : String) (tr : List Event) (lip : String) (r1 : RouterClient) (tr1 : List Event)
    (h : GetLocalIP net os r tr = (.ok lip, r1, tr1)) :
    let tcp := Event.AddPortMapping "" port "TCP" port lip true desc 0
    let udp := Event.AddPortMapping "" port "UDP" port lip true desc 0
    let t1 := tr1 ++ [.Println [.str "Forwarding port", .uint port, .str "on TCP..."]]
    let t2 := t1 ++ [tcp, .Println [.str "Forwarding port", .uint port, .str "on UDP..."]]
    let dev := r.RouterClientConn.device
    (∀ e, dev.AddPortMapping t1 "" port "TCP" port lip true desc 0 = some e →
      Forward net os r port desc tr = (some e, r, t1 ++ [tcp]) ∧
      remoteCalls (Forward net os r port desc tr).2.2 = remoteCalls tr ++ [tcp]) ∧
    (dev.AddPortMapping t1 "" port "TCP" port lip true desc 0 = none →
      Forward net os r port desc tr =
        (dev.AddPortMapping t2 "" port "UDP" port lip true desc 0, r, t2 ++ [udp]) ∧
      remoteCalls (Forward net os r port desc tr).2.2 = remoteCalls tr ++ [tcp, udp]) := by
  intro tcp udp t1 t2 dev
  have hr : r1 = r := by
    have := GetLocalIP_receiver net os r tr
    rw [h] at this
    exact this
  have hrem : remoteCalls tr1 = remoteCalls tr := by
    have := GetLocalIP_remoteCalls net os r tr
    rw [h] at this
    exact this
  subst hr
  constructor
  · intro e he
    have hF : Forward net os r1 port desc tr = (some e, r1, t1 ++ [tcp]) := by
      simp only [Forward, h]
      rw [he]
    refine ⟨hF, ?_⟩
    rw [hF]
    simp only [t1, remoteCalls_append, hrem]
    simp [tcp, remoteCalls, Event.isRemote]
  · intro he
    have hF : Forward net os r1 port desc tr =
        (dev.AddPortMapping t2 "" port "UDP" port lip true desc 0, r1, t2 ++ [udp]) := by
      simp only [Forward, h]
      rw [he]
      simp only [List.append_assoc, List.singleton_append, List.cons_append, List.nil_append]
      cases hu : r1.RouterClientConn.device.AddPortMapping
          (tr1 ++ (Event.Println [.str "Forwarding port", .uint port, .str "on TCP..."] ::
            Event.AddPortMapping "" port "TCP" port lip true desc 0 ::
            [Event.Println [.str "Forwarding port", .uint port, .str "on UDP..."]]))
          "" port "UDP" port lip true desc 0 <;>
        simp [t1, t2, tcp, udp, dev, hu]
    refine ⟨hF, ?_⟩
    rw [hF]
    simp only [t1, t2, remoteCalls_append, hrem]
    simp [tcp, udp, remoteCalls, Event.isRemote]

/-- Witness for C4: the gateway rejects the TCP request; the UDP request is never
issued. -/
theorem Forward_tcp_then_udp_witness :
    GetLocalIP dottedQuad sampleHost
        (CreateRouterClient (.WANIPConnection2 gatewayRejectingTCP)) [] =
      (.ok "192.168.1.50", CreateRouterClient (.WANIPConnection2 gatewayRejectingTCP),
        [.Interfaces, .Addrs 0, .Addrs 1]) ∧
    remoteCalls (Forward dottedQuad sampleHost
        (CreateRouterClient (.WANIPConnection2 gatewayRejectingTCP)) 8080 "test" []).2.2 =
      remoteCalls [] ++ [.AddPortMapping "" 8080 "TCP" 8080 "192.168.1.50" true "test" 0] :=
  ⟨rfl,
    ((Forward_tcp_then_udp dottedQuad sampleHost
      (CreateRouterClient (.WANIPConnection2 gatewayRejectingTCP)) 8080 "test" []
      "192.168.1.50" (CreateRouterClient (.WANIPConnection2 gatewayRejectingTCP))
      [.Interfaces, .Addrs 0, .Addrs 1] rfl).1
      (.foreign "SOAP fault 718: ConflictInMappingEntry") rfl).2⟩

/-- C5: `Clear p` first issues `DeletePortMapping("", p, "TCP")`; if that call
fails, `Clear` returns that error unchanged and the TCP request is the only RPC;
otherwise it issues `DeletePortMapping("", p, "UDP")` and returns its result
unchanged. The receiver is not changed and no interface enumeration is made. -/
theorem Clear_tcp_then_udp (r : RouterClient) (port : Nat) (tr : List Event) :
    let tcp := Event.DeletePortMapping "" port "TCP"
    let udp := Event.DeletePortMapping "" port "UDP"
    let t1 := tr ++ [.Println [.str "Clearing port", .uint port, .str "on TCP..."]]
    let t2 := t1 ++ [tcp, .Println [.str "Clearing port", .uint port, .str "on UDP..."]]
    let dev := r.RouterClientConn.device
    (∀ e, dev.DeletePortMapping t1 "" port "TCP" = some e →
      Clear r port tr = (some e, r, t1 ++ [tcp]) ∧
      remoteCalls (Clear r port tr).2.2 = remoteCalls tr ++ [tcp]) ∧
    (dev.DeletePortMapping t1 "" port "TCP" = none →
      Clear r port tr = (dev.DeletePortMapping t2 "" port "UDP", r, t2 ++ [udp]) ∧
      remoteCalls (Clear r port tr).2.2 = remoteCalls tr ++ [tcp, udp]) ∧
    interfaceEnumerations (Clear r port tr).2.2 = interfaceEnumerations tr := by
  intro tcp udp t1 t2 dev
  refine ⟨?_, ?_, ?_⟩
  · intro e he
    have hC : Clear r port tr = (some e, r, t1 ++ [tcp]) := by
      simp only [Clear]
      rw [he]
    refine ⟨hC, ?_⟩
    rw [hC]
    simp only [t1, remoteCalls_append]
    simp [tcp, remoteCalls, Event.isRemote]
  · intro he
    have hC : Clear r port tr =
        (dev.DeletePortMapping t2 "" port "UDP", r, t2 ++ [udp]) := by
      simp only [Clear]
      rw [he]
      simp only [List.append_assoc, List.singleton_append, List.cons_append, List.nil_append]
      cases hu : r.RouterClientConn.device.DeletePortMapping
          (tr ++ (Event.Println [.str "Clearing port", .uint port, .str "on TCP..."] ::
            Event.DeletePortMapping "" port "TCP" ::
            [Event.Println [.str "Clearing port", .uint port, .str "on UDP..."]]))
          "" port "UDP" <;>
        simp [t1, t2, tcp, udp, dev, hu]
    refine ⟨hC, ?_⟩
    rw [hC]
    simp only [t1, t2, remoteCalls_append]
    simp [tcp, udp, remoteCalls, Event.isRemote]
  · simp only [Clear]
    split
    · simp [interfaceEnumerations]
    · split <;> simp [interfaceEnumerations]

/-- Witness for C5: the gateway answers the TCP delete with a fault; `Clear`
returns that fault and issues no UDP delete. -/
theorem Clear_tcp_then_udp_witness :
    gatewayRejectingTCP.DeletePortMapping
        [.Println [.str "Clearing port", .uint 8080, .str "on TCP..."]] "" 8080 "TCP" =
      some (.foreign "SOAP fault 714: NoSuchEntryInArray") ∧
    Clear (CreateRouterClient (.WANIPConnection1 gatewayRejectingTCP)) 8080 [] =
      (some (.foreign "SOAP fault 714: NoSuchEntryInArray"),
        CreateRouterClient (.WANIPConnection1 gatewayRejectingTCP),
        [.Println [.str "Clearing port", .uint 8080, .str "on TCP..."],
          .DeletePortMapping "" 8080 "TCP"]) :=
  ⟨rfl,
    ((Clear_tcp_then_udp (CreateRouterClient (.WANIPConnection1 gatewayRejectingTCP))
      8080 []).1 (.foreign "SOAP fault 714: NoSuchEntryInArray") rfl).1⟩

/-- After any call of `GetLocalIP` on a client made by `CreateRouterClient` the
field `localIP` is still empty. -/
theorem GetLocalIP_leaves_localIP_empty (net : NetPkg) (os : Host) (conn : RouterClientConn)
    (tr : List Event) :
    (GetLocalIP net os (CreateRouterClient conn) tr).2.1.localIP = "" := by
  rw [GetLocalIP_receiver]
  rfl

/-- C6, evaluated: on a client made by `CreateRouterClient` a first call of
`GetLocalIP` returns `192.168.1.50` and leaves `localIP` empty; the second call
enumerates the interfaces again, so that two calls make two enumerations. -/
theorem GetLocalIP_second_call_enumerates_again :
    (GetLocalIP dottedQuad sampleHost (CreateRouterClient (.WANIPConnection2 gatewayA)) []).1 =
      .ok "192.168.1.50" ∧
    (GetLocalIP dottedQuad sampleHost
      (CreateRouterClient (.WANIPConnection2 gatewayA)) []).2.1.localIP = "" ∧
    interfaceEnumerations (GetLocalIP dottedQuad sampleHost
      (CreateRouterClient (.WANIPConnection2 gatewayA)) []).2.2 = 1 ∧
    (GetLocalIP dottedQuad sampleHost
      (GetLocalIP dottedQuad sampleHost (CreateRouterClient (.WANIPConnection2 gatewayA)) []).2.1
      (GetLocalIP dottedQuad sampleHost
        (CreateRouterClient (.WANIPConnection2 gatewayA)) []).2.2).1 = .ok "192.168.1.50" ∧
    interfaceEnumerations (GetLocalIP dottedQuad sampleHost
      (GetLocalIP dottedQuad sampleHost (CreateRouterClient (.WANIPConnection2 gatewayA)) []).2.1
      (GetLocalIP dottedQuad sampleHost
        (CreateRouterClient (.WANIPConnection2 gatewayA)) []).2.2).2.2 = 2 :=
  ⟨rfl, rfl, by decide, rfl, by decide⟩

/-- C7, evaluated: the URL base host is the IP literal `192.168.1.1` and the host
has the address `192.168.1.50/24`, whose subnet contains `192.168.1.1`; yet
`GetLocalIP` fails with "couldn't determine router's internal ip", because
`SplitHostPort` answers an empty host for a host without a port. -/
theorem GetLocalIP_fails_on_host_without_port :
    dottedQuad.ParseIP gatewayDefaultPort.URLBaseHost =
      some [0, 0, 0, 0, 0, 0, 0, 0, 0, 0, 255, 255, 192, 168, 1, 1] ∧
    dottedQuad.Contains ⟨[192, 168, 1, 50], [255, 255, 255, 0]⟩
      [0, 0, 0, 0, 0, 0, 0, 0, 0, 0, 255, 255, 192, 168, 1, 1] = true ∧
    SplitHostPort gatewayDefaultPort.URLBaseHost =
      ("", "", some (.AddrError "missing port in address" "192.168.1.1")) ∧
    GetLocalIP dottedQuad sampleHost (CreateRouterClient (.WANIPConnection2 gatewayDefaultPort))
        [] =
      (.error (.errorString "couldn't determine router's internal ip"),
        CreateRouterClient (.WANIPConnection2 gatewayDefaultPort), []) :=
  ⟨rfl, rfl, rfl, rfl⟩

/-- C9, evaluated: the gateway rejects the TCP request, so `Forward` and `Clear`
return an error; `main` prints the success message for the forward and for the
clear command and never prints the error. -/
theorem main_swallows_forward_and_clear_errors :
    (Forward dottedQuad sampleHost (CreateRouterClient (.WANIPConnection2 gatewayRejectingTCP))
        8080 "upnp-cli" [.Println [.str "Finding your router..."]]).1 =
      some (.foreign "SOAP fault 718: ConflictInMappingEntry") ∧
    main (sampleProcess ["upnp", "forward", "8080"] gatewayRejectingTCP none) =
      (.returned,
        [.Println [.str "Finding your router..."],
          .Interfaces, .Addrs 0, .Addrs 1,
          .Println [.str "Forwarding port", .uint 8080, .str "on TCP..."],
          .AddPortMapping "" 8080 "TCP" 8080 "192.168.1.50" true "upnp-cli" 0,
          .Println [.str "Forwarded port", .uint 8080, .str "successfully!"]]) ∧
    (Clear (CreateRouterClient (.WANIPConnection2 gatewayRejectingTCP))
        8080 [.Println [.str "Finding your router..."]]).1 =
      some (.foreign "SOAP fault 714: NoSuchEntryInArray") ∧
    main (sampleProcess ["upnp", "clear", "8080"] gatewayRejectingTCP none) =
      (.returned,
        [.Println [.str "Finding your router..."],
          .Println [.str "Clearing port", .uint 8080, .str "on TCP..."],
          .DeletePortMapping "" 8080 "TCP",
          .Println [.str "Cleared port", .uint 8080, .str "successfully!"]]) :=
  ⟨rfl, rfl, rfl, rfl⟩

/-- C10, evaluated: `upnp clear` without a port, discovery having found a gateway:
`main` prints the usage line, goes on to read `os.Args[2]` and panics with
"index out of range [2] with length 2". -/
theorem main_clear_without_port_panics :
    PickRouterClient .ip1_ip2_ppp1 ⟨[], none⟩ ⟨[gatewayA], none⟩ ⟨[], none⟩ =
      .ok (.WANIPConnection2 gatewayA) ∧
    main (sampleProcess ["upnp", "clear"] gatewayA none) =
      (.indexOutOfRange 2 2,
        [.Println [.str "Finding your router..."],
          .Println [.str "usage:", .str "upnp", .str "clear <port>"]]) ∧
    main (sampleProcess ["upnp", "unforward"] gatewayA none) =
      (.indexOutOfRange 2 2,
        [.Println [.str "Finding your router..."],
          .Println [.str "usage:", .str "upnp", .str "clear <port>"]]) :=
  ⟨rfl, rfl, rfl⟩

/-! ### Further facts on `GetLocalIP` -/

/-- The address loop returns the text of the first range that contains `devIP`. -/
theorem GetLocalIP.addrs_eq (net : NetPkg) (devIP : IP) (addrs : List Addr) :
    GetLocalIP.addrs net devIP addrs =
      (firstContainingRange net devIP (ranges addrs)).map (fun x => net.IPString x.IP) := by
  induction addrs with
  | nil => rfl
  | cons a rest ih =>
    cases a with
    | IPNet x =>
      by_cases hc : net.Contains x devIP = true
      · simp [GetLocalIP.addrs, ranges, firstContainingRange, hc]
      · simp only [GetLocalIP.addrs, ranges, firstContainingRange, hc, List.find?_cons]
        simp only [Bool.not_eq_true] at hc
        rw [ih]
        simp [firstContainingRange, hc]
    | IPAddr ip z =>
      simp only [GetLocalIP.addrs, ranges]
      exact ih

/-- On interfaces whose `Addrs()` calls succeed, the interface loop returns the
text of the first range, in interface order then address order, that contains
`devIP`, and fails with "couldn't determine internal ip" when there is none. -/
theorem GetLocalIP.ifaces_static (net : NetPkg) (devIP : IP) (l : List (String × List Addr)) :
    ∀ (i : Nat) (tr : List Event),
      (GetLocalIP.ifaces net devIP (l.map (fun p => staticInterface p.1 p.2)) i tr).1 =
        match firstContainingRange net devIP (l.flatMap (fun p => ranges p.2)) with
        | some x => .ok (net.IPString x.IP)
        | none => .error (.errorString "couldn't determine internal ip") := by
  induction l with
  | nil => intro i tr; rfl
  | cons p rest ih =>
    intro i tr
    simp only [List.map_cons, GetLocalIP.ifaces, staticInterface, List.flatMap_cons,
      firstContainingRange, List.find?_append]
    rw [GetLocalIP.addrs_eq]
    cases hf : firstContainingRange net devIP (ranges p.2) with
    | some x =>
      simp only [firstContainingRange] at hf
      simp [hf]
    | none =>
      simp only [firstContainingRange] at hf
      simp only [hf, Option.map_none', Option.none_or]
      exact ih (i + 1) (tr ++ [.Addrs i])

/-- When the host that `SplitHostPort` extracts from the
URL base parses as `devIP`, and the interface enumeration and every `Addrs()` call
succeed, `GetLocalIP` on a fresh client returns the address of the first range, in
interface order then address order, whose subnet contains `devIP`, and fails with
"couldn't determine internal ip" exactly when no range contains it. -/
theorem GetLocalIP_first_containing_range (net : NetPkg) (os : Host) (conn : RouterClientConn)
    (tr : List Event) (devIP : IP) (l : List (String × List Addr))
    (hhost : net.ParseIP (SplitHostPort conn.device.URLBaseHost).1 = some devIP)
    (hifs : os.Interfaces tr = .ok (l.map (fun p => staticInterface p.1 p.2))) :
    (GetLocalIP net os (CreateRouterClient conn) tr).1 =
      match firstContainingRange net devIP (l.flatMap (fun p => ranges p.2)) with
      | some x => .ok (net.IPString x.IP)
      | none => .error (.errorString "couldn't determine internal ip") := by
  simp only [GetLocalIP, CreateRouterClient, ne_eq, not_true_eq_false, if_false, hhost, hifs]
  exact GetLocalIP.ifaces_static net devIP l 0 (tr ++ [.Interfaces])

theorem LastIndexByteString_eq_none (c : Char) (s : List Char) (h : ∀ x ∈ s, x ≠ c) :
    LastIndexByteString s c = none := by
  induction s with
  | nil => rfl
  | cons x xs ih =>
    have hx : x ≠ c := h x (by simp)
    have hxs : ∀ y ∈ xs, y ≠ c := fun y hy => h y (by simp [hy])
    simp [LastIndexByteString, ih hxs, hx]

/-- Go `net.SplitHostPort` on text without a colon: the host is empty and the
error is "missing port in address". -/
theorem SplitHostPort_without_colon (hostport : String)
    (h : ∀ x ∈ hostport.data, x ≠ ':') :
    SplitHostPort hostport =
      ("", "", some (.AddrError "missing port in address" hostport)) := by
  simp only [SplitHostPort, LastIndexByteString_eq_none ':' hostport.data h]

/-- Whenever the URL base host has no colon (no
explicit port) and `ParseIP` rejects the empty text, `GetLocalIP` on a fresh
client fails with "couldn't determine router's internal ip" and enumerates no
interface. -/
theorem GetLocalIP_fails_without_colon (net : NetPkg) (os : Host) (conn : RouterClientConn)
    (tr : List Event) (hnet : net.ParseIP "" = none)
    (h : ∀ x ∈ conn.device.URLBaseHost.data, x ≠ ':') :
    GetLocalIP net os (CreateRouterClient conn) tr =
      (.error (.errorString "couldn't determine router's internal ip"),
        CreateRouterClient conn, tr) := by
  simp only [GetLocalIP, CreateRouterClient, ne_eq, not_true_eq_false, if_false,
    SplitHostPort_without_colon _ h, hnet]

/-! ### Further facts on `main` -/

/-- The forward and keep commands given without a
port print their usage line and return, once discovery has found a gateway. -/
theorem main_forward_keep_without_port (p : Process) (a0 cmd : String)
    (conn : RouterClientConn) (hargs : p.Args = [a0, cmd])
    (hpick : PickRouterClient p.order p.ip1 p.ip2 p.ppp1 = .ok conn) :
    ((cmd = "forward" ∨ cmd = "f") →
      main p = (.returned, [.Println [.str "Finding your router..."],
        .Println [.str "usage:", .str a0, .str "forward <port> [optional description]"]])) ∧
    ((cmd = "keep" ∨ cmd = "k") →
      main p = (.returned, [.Println [.str "Finding your router..."],
        .Println [.str "usage:", .str a0, .str "keep <port> [optional description]"]])) := by
  constructor
  · intro h
    rcases h with h | h <;> subst h <;> simp [main, hargs, hpick]
  · intro h
    rcases h with h | h <;> subst h <;> simp [main, hargs, hpick]

/-- Each spelling of the clear command given
without a port, once discovery has found a gateway, prints the usage line and
then panics on `os.Args[2]`. -/
theorem main_clear_without_port (p : Process) (a0 cmd : String)
    (conn : RouterClientConn) (hargs : p.Args = [a0, cmd])
    (hpick : PickRouterClient p.order p.ip1 p.ip2 p.ppp1 = .ok conn)
    (hcmd : cmd = "clear" ∨ cmd = "c" ∨ cmd = "unforward" ∨ cmd = "uf") :
    main p = (.indexOutOfRange 2 2, [.Println [.str "Finding your router..."],
      .Println [.str "usage:", .str a0, .str "clear <port>"]]) := by
  rcases hcmd with h | h | h | h <;> subst h <;> simp [main, hargs, hpick]

/-- In the keep command an error of `Forward` is
printed, the success message is not, and `main` returns. -/
theorem main_keep_reports_forward_error (p : Process) (a0 cmd a2 : String)
    (rest : List String) (conn : RouterClientConn) (port : Nat) (e : Error)
    (r1 : RouterClient) (tr1 : List Event)
    (hargs : p.Args = a0 :: cmd :: a2 :: rest)
    (hcmd : cmd = "keep" ∨ cmd = "k")
    (hpick : PickRouterClient p.order p.ip1 p.ip2 p.ppp1 = .ok conn)
    (hport : ParseUint a2 = (port, none))
    (hfwd : Forward p.net p.os (CreateRouterClient conn) (port % 65536)
      (if 0 < rest.length then " ".intercalate rest else "upnp-cli")
      [.Println [.str "Finding your router..."]] = (some e, r1, tr1)) :
    main p = (.returned, tr1 ++ [.Println [.str "Couldn't forward:", .err e]]) := by
  rcases hcmd with h | h <;> subst h <;>
    simp [main, hargs, hpick, hport, hfwd]

/-- Function `main` reads `os.Args` past its end only in the clear command given
without a port: whenever a run ends in the index panic, the argument list has
length two, its command is a spelling of clear, and the index read is 2. -/
theorem main_panics_only_in_clear (p : Process) (i n : Nat) (tr : List Event)
    (h : main p = (.indexOutOfRange i n, tr)) :
    i = 2 ∧ n = 2 ∧
      ∃ a0 cmd, p.Args = [a0, cmd] ∧
        (cmd = "clear" ∨ cmd = "c" ∨ cmd = "unforward" ∨ cmd = "uf") := by
  rcases hA : p.Args with _ | ⟨a0, _ | ⟨cmd, _ | ⟨a2, rest⟩⟩⟩
  · simp [main, hA] at h
  · simp [main, hA] at h
  · simp only [main, hA] at h
    simp at h
    repeat' split at h
    all_goals first
      | (simp_all; done)
      | (obtain ⟨⟨rfl, rfl⟩, _⟩ := h
         exact ⟨rfl, rfl, a0, cmd, rfl, by assumption⟩)
  · simp only [main, hA] at h
    simp at h
    repeat' split at h
    all_goals simp_all

end UpnpCli
